import Mathlib

/-!
Shallow embedding of the computational core of the electrical-load dashboard
(`src/electrical.js`, with `src/dist/main.js` as the compiled variant):
input validation, the power/cost calculator, JS-style default substitution,
and the localStorage-backed calculation history.

JavaScript numbers are modelled as `Option ℝ`: `none` stands for NaN (the
result of `parseFloat` on a non-numeric string), `some x` for an ordinary
number.  All functions here are pure and total, mirroring the fact that the
source validator and calculator never throw and have no side effects; the
localStorage interaction is modelled by explicit state passing on the value
of the single `calculationHistory` key.
-/

noncomputable section

/-- A JavaScript number as produced by `parseFloat` / `parseInt`:
`none` models NaN, `some x` a real value. -/
abbrev JSNum := Option ℝ

/-- A validation rule from `VALIDATION_RULES` (src/electrical.js lines 141-172). -/
structure ValidationRule where
  min : ℝ
  max : ℝ
  required : Bool
  description : String

/-- The static rule table `VALIDATION_RULES` (src/electrical.js lines 141-172). -/
structure ValidationRules where
  voltage : ValidationRule
  current : ValidationRule
  powerFactor : ValidationRule
  efficiency : ValidationRule
  rate : ValidationRule

def VALIDATION_RULES : ValidationRules where
  voltage := ⟨0, 1000000, true, "Voltage"⟩
  current := ⟨0, 100000, true, "Current"⟩
  powerFactor := ⟨0.5, 1.0, false, "Power Factor"⟩
  efficiency := ⟨0, 100, false, "Efficiency"⟩
  rate := ⟨0, 10, false, "Electricity Rate"⟩

/-- Result record of `validateInputs`. -/
structure ValidationResult where
  isValid : Bool
  errors : List String
  deriving DecidableEq

/-- `validateInputs` (src/electrical.js lines 177-216).  The JS guard
`isNaN(x) || x === null` is modelled by the `none` case of the `Option`
(`parseFloat` never yields `null`); the `rate` parameter is accepted but,
as in the source, never inspected. -/
def validateInputs (voltage current powerFactor efficiency rate : JSNum) :
    ValidationResult :=
  let errors : List String := []
  -- Validate voltage
  let errors :=
    match voltage with
    | none => errors ++ [VALIDATION_RULES.voltage.description ++ " is required"]
    | some v =>
      if v ≤ VALIDATION_RULES.voltage.min then
        errors ++ [VALIDATION_RULES.voltage.description ++ " must be greater than 0"]
      else if v > VALIDATION_RULES.voltage.max then
        errors ++ [VALIDATION_RULES.voltage.description ++ " exceeds maximum limit"]
      else errors
  -- Validate current
  let errors :=
    match current with
    | none => errors ++ [VALIDATION_RULES.current.description ++ " is required"]
    | some c =>
      if c ≤ VALIDATION_RULES.current.min then
        errors ++ [VALIDATION_RULES.current.description ++ " must be greater than 0"]
      else if c > VALIDATION_RULES.current.max then
        errors ++ [VALIDATION_RULES.current.description ++ " exceeds maximum limit"]
      else errors
  -- Validate power factor
  let errors :=
    match powerFactor with
    | none => errors
    | some p =>
      if p < VALIDATION_RULES.powerFactor.min ∨ p > VALIDATION_RULES.powerFactor.max then
        errors ++ [VALIDATION_RULES.powerFactor.description ++ " must be between 0.5 and 1.0"]
      else errors
  -- Validate efficiency
  let errors :=
    match efficiency with
    | none => errors
    | some e =>
      if e < VALIDATION_RULES.efficiency.min ∨ e > VALIDATION_RULES.efficiency.max then
        errors ++ [VALIDATION_RULES.efficiency.description ++ " must be between 0 and 100"]
      else errors
  { isValid := errors.length == 0, errors := errors }

/-- Result record of `calculatePower` (src/electrical.js lines 102-113). -/
structure CalculationResult where
  kw : ℝ
  kva : ℝ
  kvar : ℝ
  pf : ℝ
  adjustedPower : ℝ
  phase : JSNum
  costPerHour : ℝ
  costPerDay : ℝ
  costPerMonth : ℝ
  costPerYear : ℝ

/-- `calculatePower` (src/electrical.js lines 236-275; identical in
src/dist/main.js lines 91-121).  `phase` comes from `parseInt`, so it is a
`JSNum`; the test `phase === 1` becomes `phase = some 1` (NaN compares
unequal to every number, matching `none ≠ some 1`). -/
def calculatePower (voltage current : ℝ) (phase : JSNum)
    (powerFactor efficiency rate : ℝ) : CalculationResult :=
  let kwkva : ℝ × ℝ :=
    if phase = some 1 then
      -- Single phase: S = V × I
      let kva := (voltage * current) / 1000
      let kw := kva * powerFactor
      (kw, kva)
    else
      -- Three phase: S = √3 × V × I
      let sqrt3 := Real.sqrt 3
      let kva := (sqrt3 * voltage * current) / 1000
      let kw := kva * powerFactor
      (kw, kva)
  let kw := kwkva.1
  let kva := kwkva.2
  -- Apply efficiency
  let adjustedPower := kw * (efficiency / 100)
  -- Reactive power (kVAR) from power triangle: Q² = S² - P²
  let kvar := Real.sqrt (max 0 (kva ^ 2 - kw ^ 2))
  -- Cost calculations
  let costPerHour := adjustedPower * rate
  let costPerDay := costPerHour * 24
  let costPerMonth := costPerDay * 30
  let costPerYear := costPerDay * 365
  { kw := kw, kva := kva, kvar := kvar, pf := powerFactor,
    adjustedPower := adjustedPower, phase := phase,
    costPerHour := costPerHour, costPerDay := costPerDay,
    costPerMonth := costPerMonth, costPerYear := costPerYear }

/-- `calculateReactivePower` from the compiled utility module
(src/electrical.js lines 57-59): `Math.sqrt(Math.max(0, S² - P²))`. -/
def calculateReactivePower (apparentPower realPower : ℝ) : ℝ :=
  Real.sqrt (max 0 (apparentPower ^ 2 - realPower ^ 2))

/-- JavaScript `x || d` applied to a number `x`: the default `d` is taken
when `x` is falsy, i.e. when `x` is NaN or `x` is (positive or negative)
zero.  This models the idiom `parseFloat(input.value) || default` used in
`updateCalculations` / `saveCalculation` / `getInputValues`. -/
def jsOr (x : JSNum) (d : ℝ) : ℝ :=
  match x with
  | none => d
  | some v => if v = 0 then d else v

/-- The six raw parsed field values, before default substitution:
`parseFloat(voltageInput.value)`, …, each possibly NaN. -/
structure RawInputs where
  voltage : JSNum
  current : JSNum
  phase : JSNum
  powerFactor : JSNum
  efficiency : JSNum
  rate : JSNum

/-- The input record after default substitution: voltage, current and phase
are passed through unchanged (still possibly NaN), while the three optional
fields have been collapsed through `||` and are plain numbers. -/
structure InputValues where
  voltage : JSNum
  current : JSNum
  phase : JSNum
  powerFactor : ℝ
  efficiency : ℝ
  rate : ℝ

/-- `getInputValues` (src/dist/main.js lines 166-175; inlined at the top of
`updateCalculations` and `saveCalculation` in src/electrical.js
lines 329-334 and 375-380). -/
def getInputValues (raw : RawInputs) : InputValues where
  voltage := raw.voltage
  current := raw.current
  phase := raw.phase
  powerFactor := jsOr raw.powerFactor 0.9
  efficiency := jsOr raw.efficiency 100
  rate := jsOr raw.rate 0.12

/-- `updateCalculations` (src/electrical.js lines 328-345), with the two
display calls replaced by returning either the error list or the computed
result.  When validation passes, voltage and current are necessarily
non-NaN, so the catch-all arm is unreachable. -/
def updateCalculations (raw : RawInputs) : Except (List String) CalculationResult :=
  let iv := getInputValues raw
  let validation := validateInputs iv.voltage iv.current
    (some iv.powerFactor) (some iv.efficiency) (some iv.rate)
  if validation.isValid then
    match iv.voltage, iv.current with
    | some v, some c =>
      Except.ok (calculatePower v c iv.phase iv.powerFactor iv.efficiency iv.rate)
    | _, _ => Except.error validation.errors
  else
    Except.error validation.errors

/-- A saved calculation snapshot (src/electrical.js lines 115-125 and
390-400).  Voltage and current are stored after validation, hence non-NaN. -/
structure HistoryItem where
  id : String
  timestamp : ℤ
  voltage : ℝ
  current : ℝ
  phase : JSNum
  powerFactor : ℝ
  efficiency : ℝ
  rate : ℝ
  result : CalculationResult

/-- The value of the localStorage key `calculationHistory`: `none` when the
key is absent (`localStorage.getItem` returned `null`), `some l` when it
holds the serialized list `l` (serialization is treated as the identity). -/
abbrev Storage := Option (List HistoryItem)

/-- `getHistory` (src/electrical.js lines 414-417):
`historyData ? JSON.parse(historyData) : []`. -/
def getHistory (s : Storage) : List HistoryItem :=
  s.getD []

/-- The store-mutation part of `saveCalculation` (src/electrical.js
lines 402-410): unshift the new item, truncate with `splice(10)` when the
list exceeds 10 entries, persist the whole list. -/
def saveHistory (item : HistoryItem) (s : Storage) : Storage :=
  let history := item :: getHistory s
  let history := if history.length > 10 then history.take 10 else history
  some history

/-- `saveCalculation` (src/electrical.js lines 374-412): parse with
defaults, validate (alerting and leaving storage untouched on failure),
compute, build the history item from `Date.now()` and persist it. -/
def saveCalculation (raw : RawInputs) (nowId : String) (now : ℤ) (s : Storage) :
    Storage :=
  let iv := getInputValues raw
  let validation := validateInputs iv.voltage iv.current
    (some iv.powerFactor) (some iv.efficiency) (some iv.rate)
  if validation.isValid then
    match iv.voltage, iv.current with
    | some v, some c =>
      let result := calculatePower v c iv.phase iv.powerFactor iv.efficiency iv.rate
      let historyItem : HistoryItem :=
        { id := nowId, timestamp := now, voltage := v, current := c,
          phase := iv.phase, powerFactor := iv.powerFactor,
          efficiency := iv.efficiency, rate := iv.rate, result := result }
      saveHistory historyItem s
    | _, _ => s
  else
    s

/-- `clearHistory` (src/electrical.js lines 419-424), confirmed branch:
`localStorage.removeItem('calculationHistory')`. -/
def clearHistory (_s : Storage) : Storage :=
  none

/-- `deleteHistoryItem` (src/electrical.js lines 426-431): filter out the
matching id and persist the filtered list. -/
def deleteHistoryItem (id : String) (s : Storage) : Storage :=
  let history := getHistory s
  let filtered := history.filter (fun item => item.id ≠ id)
  some filtered

/-- The storage states reachable from a fresh browser profile (key absent)
by the three history-store operations. -/
inductive Reachable : Storage → Prop
  | init : Reachable none
  | save (item : HistoryItem) {s : Storage} : Reachable s → Reachable (saveHistory item s)
  | del (id : String) {s : Storage} : Reachable s → Reachable (deleteHistoryItem id s)
  | clear {s : Storage} : Reachable s → Reachable (clearHistory s)

/-- Saving a sequence of items one after the other (earliest first). -/
def saveSeq (items : List HistoryItem) (s : Storage) : Storage :=
  items.foldl (fun st it => saveHistory it st) s

/-- A concrete history item used to instantiate the store theorems. -/
def sampleItem : HistoryItem where
  id := "1"
  timestamp := 0
  voltage := 120
  current := 10
  phase := some 1
  powerFactor := 0.9
  efficiency := 100
  rate := 0.12
  result := calculatePower 120 10 (some 1) 0.9 100 0.12

/-- Modelled from the spec: the voltage rule of section 4.1, "required;
fails if not-a-number, or ≤ 0, or > 1,000,000", as an independent error
segment. -/
def specVoltageErrors : JSNum → List String
  | none => ["Voltage is required"]
  | some v =>
    if v ≤ 0 then ["Voltage must be greater than 0"]
    else if v > 1000000 then ["Voltage exceeds maximum limit"]
    else []

/-- Modelled from the spec: the current rule of section 4.1, "required;
fails if not-a-number, or ≤ 0, or > 100,000". -/
def specCurrentErrors : JSNum → List String
  | none => ["Current is required"]
  | some c =>
    if c ≤ 0 then ["Current must be greater than 0"]
    else if c > 100000 then ["Current exceeds maximum limit"]
    else []

/-- Modelled from the spec: the power-factor rule of section 4.1,
"optional; if present (not not-a-number) and outside [0.5, 1.0], fails". -/
def specPowerFactorErrors : JSNum → List String
  | none => []
  | some p =>
    if p < 0.5 ∨ p > 1.0 then ["Power Factor must be between 0.5 and 1.0"]
    else []

/-- Modelled from the spec: the efficiency rule of section 4.1,
"optional; if present and outside [0, 100], fails". -/
def specEfficiencyErrors : JSNum → List String
  | none => []
  | some e =>
    if e < 0 ∨ e > 100 then ["Efficiency must be between 0 and 100"]
    else []

/-- Modelled from the spec: the accumulated, ordered error list of
section 4.1 — the four rules applied independently (no short-circuiting
across fields), concatenated in the fixed order voltage, current,
powerFactor, efficiency. -/
def specValidatorErrors (voltage current powerFactor efficiency : JSNum) :
    List String :=
  specVoltageErrors voltage ++ specCurrentErrors current ++
    specPowerFactorErrors powerFactor ++ specEfficiencyErrors efficiency

/-- The validator's error list decomposes into the four independently
computed field segments of the spec, concatenated in order. -/
theorem validateInputs_errors_eq
    (voltage current powerFactor efficiency rate : JSNum) :
    (validateInputs voltage current powerFactor efficiency rate).errors =
      specValidatorErrors voltage current powerFactor efficiency := by
  rcases voltage with _ | v <;> rcases current with _ | c <;>
    rcases powerFactor with _ | p <;> rcases efficiency with _ | e <;>
      simp only [validateInputs, VALIDATION_RULES, specValidatorErrors,
        specVoltageErrors, specCurrentErrors, specPowerFactorErrors,
        specEfficiencyErrors] <;>
        first
        | (split_ifs <;> simp)
        | simp

/-- Every message the voltage segment can produce. -/
theorem specVoltageErrors_mem (v : JSNum) (msg : String)
    (hm : msg ∈ specVoltageErrors v) :
    msg = "Voltage is required" ∨ msg = "Voltage must be greater than 0" ∨
      msg = "Voltage exceeds maximum limit" := by
  rcases v with _ | v
  · simp [specVoltageErrors] at hm
    simp [hm]
  · simp only [specVoltageErrors] at hm
    split_ifs at hm <;> simp_all

/-- Every message the current segment can produce. -/
theorem specCurrentErrors_mem (c : JSNum) (msg : String)
    (hm : msg ∈ specCurrentErrors c) :
    msg = "Current is required" ∨ msg = "Current must be greater than 0" ∨
      msg = "Current exceeds maximum limit" := by
  rcases c with _ | c
  · simp [specCurrentErrors] at hm
    simp [hm]
  · simp only [specCurrentErrors] at hm
    split_ifs at hm <;> simp_all

/-- Every message the power-factor segment can produce. -/
theorem specPowerFactorErrors_mem (p : JSNum) (msg : String)
    (hm : msg ∈ specPowerFactorErrors p) :
    msg = "Power Factor must be between 0.5 and 1.0" := by
  rcases p with _ | p
  · simp [specPowerFactorErrors] at hm
  · simp only [specPowerFactorErrors] at hm
    split_ifs at hm <;> simp_all

/-- Every message the efficiency segment can produce. -/
theorem specEfficiencyErrors_mem (e : JSNum) (msg : String)
    (hm : msg ∈ specEfficiencyErrors e) :
    msg = "Efficiency must be between 0 and 100" := by
  rcases e with _ | e
  · simp [specEfficiencyErrors] at hm
  · simp only [specEfficiencyErrors] at hm
    split_ifs at hm <;> simp_all

/-- The `isValid` flag is literally `errors.length == 0`. -/
theorem validateInputs_isValid (voltage current powerFactor efficiency rate : JSNum) :
    (validateInputs voltage current powerFactor efficiency rate).isValid =
      ((validateInputs voltage current powerFactor efficiency rate).errors.length == 0) :=
  rfl

/-- C2: `validateInputs` accumulates, without short-circuiting across fields
and in the fixed order voltage, current, powerFactor, efficiency, exactly the
violated rules: a voltage error when voltage is NaN, ≤ 0 or > 1000000; a
current error when current is NaN, ≤ 0 or > 100000; a powerFactor error when
powerFactor is a number outside [0.5, 1.0]; an efficiency error when
efficiency is a number outside [0, 100].  `isValid` holds iff the error list
is empty.  In particular NaN or nonpositive voltage always yields a voltage
error and current above 100000 always yields the current-exceeds-limit
error.  (The function is a pure total Lean function, so it has no side
effects and never throws by construction.) -/
theorem validateInputs_spec :
    (∀ voltage current powerFactor efficiency rate : JSNum,
      (validateInputs voltage current powerFactor efficiency rate).errors =
        specValidatorErrors voltage current powerFactor efficiency) ∧
    (∀ voltage current powerFactor efficiency rate : JSNum,
      (validateInputs voltage current powerFactor efficiency rate).isValid = true ↔
        (validateInputs voltage current powerFactor efficiency rate).errors = []) ∧
    (∀ current powerFactor efficiency rate : JSNum,
      "Voltage is required" ∈
        (validateInputs none current powerFactor efficiency rate).errors) ∧
    (∀ v : ℝ, v ≤ 0 → ∀ current powerFactor efficiency rate : JSNum,
      "Voltage must be greater than 0" ∈
        (validateInputs (some v) current powerFactor efficiency rate).errors) ∧
    (∀ c : ℝ, c > 100000 → ∀ voltage powerFactor efficiency rate : JSNum,
      "Current exceeds maximum limit" ∈
        (validateInputs voltage (some c) powerFactor efficiency rate).errors) := by
  refine ⟨validateInputs_errors_eq, ?_, ?_, ?_, ?_⟩
  · intro voltage current powerFactor efficiency rate
    rw [validateInputs_isValid]
    simp
  · intro current powerFactor efficiency rate
    simp [validateInputs_errors_eq, specValidatorErrors, specVoltageErrors]
  · intro v hv current powerFactor efficiency rate
    simp [validateInputs_errors_eq, specValidatorErrors, specVoltageErrors, hv]
  · intro c hc voltage powerFactor efficiency rate
    have hc0 : ¬ c ≤ 0 := by linarith
    simp [validateInputs_errors_eq, specValidatorErrors, specCurrentErrors, hc, hc0]

/-- Witness for C2 at concrete inputs: voltage −5 yields the nonpositive
voltage error and current 200000 yields the current-exceeds-limit error. -/
theorem validateInputs_spec_witness :
    "Voltage must be greater than 0" ∈
      (validateInputs (some (-5)) (some 10) none none none).errors ∧
    "Current exceeds maximum limit" ∈
      (validateInputs (some 120) (some 200000) none none none).errors :=
  ⟨validateInputs_spec.2.2.2.1 (-5) (by norm_num) (some 10) none none none,
   validateInputs_spec.2.2.2.2 200000 (by norm_num) (some 120) none none none⟩

/-- C10: the validation result does not depend on the `rate` argument — the
`rate` entry of `VALIDATION_RULES` is never applied — so every error message
concerns one of the other four fields and any rate value, including a
negative one or one above the rule's maximum of 10, passes validation. -/
theorem validateInputs_rate_independent :
    (∀ voltage current powerFactor efficiency r1 r2 : JSNum,
      validateInputs voltage current powerFactor efficiency r1 =
        validateInputs voltage current powerFactor efficiency r2) ∧
    (∀ voltage current powerFactor efficiency rate : JSNum,
      ∀ msg ∈ (validateInputs voltage current powerFactor efficiency rate).errors,
        msg ∈ ["Voltage is required", "Voltage must be greater than 0",
               "Voltage exceeds maximum limit", "Current is required",
               "Current must be greater than 0", "Current exceeds maximum limit",
               "Power Factor must be between 0.5 and 1.0",
               "Efficiency must be between 0 and 100"]) ∧
    (validateInputs (some 120) (some 10) (some 0.9) (some 95) (some (-5))).isValid
      = true ∧
    (validateInputs (some 120) (some 10) (some 0.9) (some 95) (some 20)).isValid
      = true := by
  refine ⟨fun _ _ _ _ _ _ => rfl, ?_, ?_, ?_⟩
  · intro voltage current powerFactor efficiency rate msg hmsg
    rw [validateInputs_errors_eq] at hmsg
    simp only [specValidatorErrors, List.mem_append] at hmsg
    rcases hmsg with ((hm | hm) | hm) | hm
    · rcases specVoltageErrors_mem _ _ hm with h | h | h <;> simp [h]
    · rcases specCurrentErrors_mem _ _ hm with h | h | h <;> simp [h]
    · simp [specPowerFactorErrors_mem _ _ hm]
    · simp [specEfficiencyErrors_mem _ _ hm]
  · rw [validateInputs_isValid, validateInputs_errors_eq]
    simp [specValidatorErrors, specVoltageErrors, specCurrentErrors,
      specPowerFactorErrors, specEfficiencyErrors]
    norm_num
  · rw [validateInputs_isValid, validateInputs_errors_eq]
    simp [specValidatorErrors, specVoltageErrors, specCurrentErrors,
      specPowerFactorErrors, specEfficiencyErrors]
    norm_num

/-- Witness for C10: the single error produced for a NaN voltage is in the
fixed message list. -/
theorem validateInputs_rate_independent_witness :
    "Voltage is required" ∈
      ["Voltage is required", "Voltage must be greater than 0",
       "Voltage exceeds maximum limit", "Current is required",
       "Current must be greater than 0", "Current exceeds maximum limit",
       "Power Factor must be between 0.5 and 1.0",
       "Efficiency must be between 0 and 100"] :=
  validateInputs_rate_independent.2.1 none (some 10) none none none
    "Voltage is required"
    (by simp [validateInputs_errors_eq, specValidatorErrors, specVoltageErrors])

/-- C1: `calculatePower` computes the record of the five-step algorithm:
kva is (V×I)/1000 for phase 1 and (√3×V×I)/1000 otherwise, kw = kva×pf,
adjustedPower = kw×(e/100), costPerHour = adjustedPower×r with day, month
and year costs obtained by the fixed factors 24, 30 and 365, and the
returned `pf` and `phase` fields are the arguments. -/
theorem calculatePower_five_step (V I : ℝ) (p : JSNum) (pf e r : ℝ) :
    (p = some 1 → (calculatePower V I p pf e r).kva = V * I / 1000) ∧
    (p ≠ some 1 →
      (calculatePower V I p pf e r).kva = Real.sqrt 3 * V * I / 1000) ∧
    (calculatePower V I p pf e r).kw = (calculatePower V I p pf e r).kva * pf ∧
    (calculatePower V I p pf e r).adjustedPower =
      (calculatePower V I p pf e r).kw * (e / 100) ∧
    (calculatePower V I p pf e r).costPerHour =
      (calculatePower V I p pf e r).adjustedPower * r ∧
    (calculatePower V I p pf e r).costPerDay =
      (calculatePower V I p pf e r).costPerHour * 24 ∧
    (calculatePower V I p pf e r).costPerMonth =
      (calculatePower V I p pf e r).costPerDay * 30 ∧
    (calculatePower V I p pf e r).costPerYear =
      (calculatePower V I p pf e r).costPerDay * 365 ∧
    (calculatePower V I p pf e r).pf = pf ∧
    (calculatePower V I p pf e r).phase = p := by
  by_cases hp : p = some 1 <;>
    simp [calculatePower, hp, mul_comm, mul_assoc, mul_left_comm]

/-- Witness for C1 at concrete inputs: both phase branches of the kva
formula. -/
theorem calculatePower_five_step_witness :
    (calculatePower 230 5 (some 1) 0.9 100 0.12).kva = 230 * 5 / 1000 ∧
    (calculatePower 230 5 (some 3) 0.9 100 0.12).kva =
      Real.sqrt 3 * 230 * 5 / 1000 :=
  ⟨(calculatePower_five_step 230 5 (some 1) 0.9 100 0.12).1 rfl,
   (calculatePower_five_step 230 5 (some 3) 0.9 100 0.12).2.1
     (by simp only [ne_eq, Option.some.injEq]; norm_num)⟩

/-- C9: the single-phase formula is selected exactly when phase = 1; for
every other phase value — including 2 or NaN, not only 3 — the three-phase
formula √3×V×I/1000 is applied. -/
theorem calculatePower_phase_selection (V I pf e r : ℝ) :
    (calculatePower V I (some 1) pf e r).kva = V * I / 1000 ∧
    ∀ p : JSNum, p ≠ some 1 →
      (calculatePower V I p pf e r).kva = Real.sqrt 3 * V * I / 1000 := by
  constructor
  · simp [calculatePower]
  · intro p hp
    simp [calculatePower, hp, mul_assoc]

/-- Witness for C9: the three-phase formula is applied at phase 2 and at
phase NaN. -/
theorem calculatePower_phase_selection_witness :
    (calculatePower 120 10 (some 2) 0.9 100 0.12).kva =
      Real.sqrt 3 * 120 * 10 / 1000 ∧
    (calculatePower 120 10 none 0.9 100 0.12).kva =
      Real.sqrt 3 * 120 * 10 / 1000 :=
  ⟨(calculatePower_phase_selection 120 10 0.9 100 0.12).2 (some 2)
     (by simp only [ne_eq, Option.some.injEq]; norm_num),
   (calculatePower_phase_selection 120 10 0.9 100 0.12).2 none
     (by simp)⟩

/-- C4: the calculator's reactive power agrees with the helper
`calculateReactivePower` and equals √(max 0 (kva² − kw²)); the clamp makes
the radicand non-negative, and the returned reactive power is non-negative
for every power factor in [0.5, 1.0]. -/
theorem calculatePower_kvar_clamped (V I : ℝ) (p : JSNum) (pf e r : ℝ) :
    (calculatePower V I p pf e r).kvar =
      calculateReactivePower (calculatePower V I p pf e r).kva
        (calculatePower V I p pf e r).kw ∧
    (calculatePower V I p pf e r).kvar =
      Real.sqrt (max 0 ((calculatePower V I p pf e r).kva ^ 2 -
        (calculatePower V I p pf e r).kw ^ 2)) ∧
    0 ≤ max 0 ((calculatePower V I p pf e r).kva ^ 2 -
        (calculatePower V I p pf e r).kw ^ 2) ∧
    (0.5 ≤ pf → pf ≤ 1 → 0 ≤ (calculatePower V I p pf e r).kvar) := by
  refine ⟨?_, ?_, le_max_left _ _, fun _ _ => Real.sqrt_nonneg _⟩
  · by_cases hp : p = some 1 <;>
      simp [calculatePower, calculateReactivePower, hp]
  · by_cases hp : p = some 1 <;>
      simp [calculatePower, hp]

/-- Witness for C4 at a concrete power factor inside [0.5, 1.0]. -/
theorem calculatePower_kvar_clamped_witness :
    0 ≤ (calculatePower 480 100 (some 3) 0.9 90 0.12).kvar :=
  (calculatePower_kvar_clamped 480 100 (some 3) 0.9 90 0.12).2.2.2
    (by norm_num) (by norm_num)

/-- C8: on the spec's single-phase example (V = 120, I = 10, phase 1,
pf = 1.0, efficiency 100, rate 0.12) the calculator returns exactly
kva = 1.2, kw = 1.2, kvar = 0, adjustedPower = 1.2 and costPerHour = 0.144. -/
theorem calculatePower_example_values :
    (calculatePower 120 10 (some 1) 1 100 0.12).kva = 1.2 ∧
    (calculatePower 120 10 (some 1) 1 100 0.12).kw = 1.2 ∧
    (calculatePower 120 10 (some 1) 1 100 0.12).kvar = 0 ∧
    (calculatePower 120 10 (some 1) 1 100 0.12).adjustedPower = 1.2 ∧
    (calculatePower 120 10 (some 1) 1 100 0.12).costPerHour = 0.144 := by
  norm_num [calculatePower, Real.sqrt_eq_zero]

/-- Saving rewrites the stored list to the front-inserted, 10-truncated
list. -/
theorem getHistory_saveHistory (item : HistoryItem) (s : Storage) :
    getHistory (saveHistory item s) = (item :: getHistory s).take 10 := by
  simp only [saveHistory, getHistory, Option.getD_some]
  split
  · rfl
  · rename_i h
    rw [List.take_of_length_le (by omega)]

/-- C3: history-store invariant.  Every state reachable by save, delete and
clear from the absent key holds at most 10 entries; save inserts the new
item at the front; neither save nor delete alters a surviving entry (each
stored entry is the newly saved item or an entry of the previous state);
and saving 11 items in sequence leaves exactly the 10 most recent,
most-recent-first. -/
theorem history_store_invariant :
    (∀ s : Storage, Reachable s → (getHistory s).length ≤ 10) ∧
    (∀ (item : HistoryItem) (s : Storage),
      getHistory (saveHistory item s) = (item :: getHistory s).take 10 ∧
      (getHistory (saveHistory item s)).head? = some item) ∧
    (∀ (item : HistoryItem) (s : Storage),
      ∀ x ∈ getHistory (saveHistory item s), x = item ∨ x ∈ getHistory s) ∧
    (∀ (id : String) (s : Storage),
      ∀ x ∈ getHistory (deleteHistoryItem id s), x ∈ getHistory s) ∧
    (∀ i1 i2 i3 i4 i5 i6 i7 i8 i9 i10 i11 : HistoryItem,
      getHistory (saveSeq [i1, i2, i3, i4, i5, i6, i7, i8, i9, i10, i11] none) =
        [i11, i10, i9, i8, i7, i6, i5, i4, i3, i2]) := by
  refine ⟨?_, ?_, ?_, ?_, ?_⟩
  · intro s hs
    induction hs with
    | init => simp [getHistory]
    | save item _ ih =>
      rw [getHistory_saveHistory, List.length_take]
      exact Nat.min_le_left 10 _
    | del id _ ih =>
      simp only [deleteHistoryItem, getHistory, Option.getD_some]
      exact le_trans (List.length_filter_le _ _) ih
    | clear _ => simp [clearHistory, getHistory]
  · intro item s
    refine ⟨getHistory_saveHistory item s, ?_⟩
    rw [getHistory_saveHistory]
    rw [show (10 : ℕ) = 9 + 1 from rfl, List.take_succ_cons]
    rfl
  · intro item s x hx
    rw [getHistory_saveHistory] at hx
    have hmem := List.take_subset 10 _ hx
    exact List.mem_cons.mp hmem
  · intro id s x hx
    simp only [deleteHistoryItem, getHistory, Option.getD_some] at hx
    exact List.mem_of_mem_filter hx
  · intro i1 i2 i3 i4 i5 i6 i7 i8 i9 i10 i11
    have h1 : saveHistory i1 none = some [i1] := by
      simp [saveHistory, getHistory]
    have h2 : saveHistory i2 (some [i1]) = some [i2, i1] := by
      simp [saveHistory, getHistory]
    have h3 : saveHistory i3 (some [i2, i1]) = some [i3, i2, i1] := by
      simp [saveHistory, getHistory]
    have h4 : saveHistory i4 (some [i3, i2, i1]) = some [i4, i3, i2, i1] := by
      simp [saveHistory, getHistory]
    have h5 : saveHistory i5 (some [i4, i3, i2, i1]) =
        some [i5, i4, i3, i2, i1] := by
      simp [saveHistory, getHistory]
    have h6 : saveHistory i6 (some [i5, i4, i3, i2, i1]) =
        some [i6, i5, i4, i3, i2, i1] := by
      simp [saveHistory, getHistory]
    have h7 : saveHistory i7 (some [i6, i5, i4, i3, i2, i1]) =
        some [i7, i6, i5, i4, i3, i2, i1] := by
      simp [saveHistory, getHistory]
    have h8 : saveHistory i8 (some [i7, i6, i5, i4, i3, i2, i1]) =
        some [i8, i7, i6, i5, i4, i3, i2, i1] := by
      simp [saveHistory, getHistory]
    have h9 : saveHistory i9 (some [i8, i7, i6, i5, i4, i3, i2, i1]) =
        some [i9, i8, i7, i6, i5, i4, i3, i2, i1] := by
      simp [saveHistory, getHistory]
    have h10 : saveHistory i10 (some [i9, i8, i7, i6, i5, i4, i3, i2, i1]) =
        some [i10, i9, i8, i7, i6, i5, i4, i3, i2, i1] := by
      simp [saveHistory, getHistory]
    have h11 : saveHistory i11
        (some [i10, i9, i8, i7, i6, i5, i4, i3, i2, i1]) =
        some [i11, i10, i9, i8, i7, i6, i5, i4, i3, i2] := by
      simp only [saveHistory, getHistory, Option.getD_some]
      rw [if_pos (by simp)]
      rfl
    simp only [saveSeq, List.foldl_cons, List.foldl_nil]
    rw [h1, h2, h3, h4, h5, h6, h7, h8, h9, h10, h11]
    rfl

/-- Witness for C3: a single save from the empty state respects the cap,
puts the item at the front, and the frame conjuncts hold at concrete
inputs. -/
theorem history_store_invariant_witness :
    (getHistory (saveHistory sampleItem none)).length ≤ 10 ∧
    (sampleItem = sampleItem ∨ sampleItem ∈ getHistory (none : Storage)) ∧
    sampleItem ∈ getHistory (some [sampleItem]) :=
  ⟨history_store_invariant.1 _ (Reachable.save sampleItem Reachable.init),
   history_store_invariant.2.2.1 sampleItem none sampleItem
     (by simp [saveHistory, getHistory]),
   history_store_invariant.2.2.2.1 "2" (some [sampleItem]) sampleItem
     (by simp [deleteHistoryItem, getHistory, sampleItem])⟩

/-- C6: deleting an id that matches no entry leaves the listed history
unchanged; in general deletion removes exactly the matching entries and
keeps every other entry in order. -/
theorem deleteHistoryItem_frame (id : String) (s : Storage) :
    getHistory (deleteHistoryItem id s) =
      (getHistory s).filter (fun item => item.id ≠ id) ∧
    ((∀ x ∈ getHistory s, x.id ≠ id) →
      getHistory (deleteHistoryItem id s) = getHistory s) := by
  refine ⟨rfl, ?_⟩
  intro h
  simp only [deleteHistoryItem, getHistory, Option.getD_some]
  rw [List.filter_eq_self.mpr]
  intro x hx
  simpa using h x hx

/-- Witness for C6: deleting id "2" from a list whose only entry has id "1"
leaves the history unchanged. -/
theorem deleteHistoryItem_frame_witness :
    getHistory (deleteHistoryItem "2" (some [sampleItem])) =
      getHistory (some [sampleItem]) :=
  (deleteHistoryItem_frame "2" (some [sampleItem])).2
    (by simp [getHistory, sampleItem])

/-- C7: clearing the history (removing the persisted key) makes listing
return the empty list, and `getHistory` returns the empty list whenever the
storage key is absent. -/
theorem clearHistory_then_empty :
    (∀ s : Storage, getHistory (clearHistory s) = []) ∧
    getHistory (none : Storage) = [] :=
  ⟨fun _ => rfl, rfl⟩

/-- C5: because default substitution uses JS truthiness (`x || d`), a field
that parses to 0 is collapsed to its default exactly as if it were absent —
rate 0 becomes 0.12, efficiency 0 becomes 100, powerFactor 0 becomes 0.9 —
before validation and calculation, so a genuine zero rate is
indistinguishable from an absent rate in the whole computation (and in every
computed cost) and in what gets saved; conversely an absent (NaN) optional
field is replaced by its documented default rather than reported as an
error, so a calculation with valid voltage and current and all optional
fields absent succeeds with powerFactor 0.9, efficiency 100, rate 0.12. -/
theorem falsy_default_substitution :
    (∀ raw : RawInputs,
      getInputValues { raw with rate := some 0 } =
        getInputValues { raw with rate := none } ∧
      getInputValues { raw with efficiency := some 0 } =
        getInputValues { raw with efficiency := none } ∧
      getInputValues { raw with powerFactor := some 0 } =
        getInputValues { raw with powerFactor := none }) ∧
    (∀ raw : RawInputs,
      updateCalculations { raw with rate := some 0 } =
        updateCalculations { raw with rate := none }) ∧
    (∀ (raw : RawInputs) (nowId : String) (now : ℤ) (s : Storage),
      saveCalculation { raw with rate := some 0 } nowId now s =
        saveCalculation { raw with rate := none } nowId now s) ∧
    (∀ raw : RawInputs,
      (getInputValues { raw with powerFactor := none }).powerFactor = 0.9 ∧
      (getInputValues { raw with efficiency := none }).efficiency = 100 ∧
      (getInputValues { raw with rate := none }).rate = 0.12) ∧
    (∀ (v c : ℝ) (phase : JSNum), 0 < v → v ≤ 1000000 → 0 < c → c ≤ 100000 →
      updateCalculations ⟨some v, some c, phase, none, none, none⟩ =
        Except.ok (calculatePower v c phase 0.9 100 0.12)) := by
  have hrate : ∀ raw : RawInputs,
      getInputValues { raw with rate := some 0 } =
        getInputValues { raw with rate := none } := by
    intro raw
    simp [getInputValues, jsOr]
  refine ⟨?_, ?_, ?_, ?_, ?_⟩
  · intro raw
    exact ⟨hrate raw, by simp [getInputValues, jsOr], by simp [getInputValues, jsOr]⟩
  · intro raw
    simp only [updateCalculations, hrate raw]
  · intro raw nowId now s
    simp only [saveCalculation, hrate raw]
  · intro raw
    exact ⟨by simp [getInputValues, jsOr], by simp [getInputValues, jsOr],
      by simp [getInputValues, jsOr]⟩
  · intro v c phase hv1 hv2 hc1 hc2
    have h1 : ¬ (v ≤ 0) := not_le.mpr hv1
    have h2 : ¬ ((1000000 : ℝ) < v) := not_lt.mpr hv2
    have h3 : ¬ (c ≤ 0) := not_le.mpr hc1
    have h4 : ¬ ((100000 : ℝ) < c) := not_lt.mpr hc2
    have h5 : ¬ ((0.9 : ℝ) < 0.5 ∨ (0.9 : ℝ) > 1.0) := by norm_num
    have h6 : ¬ ((100 : ℝ) < 0 ∨ (100 : ℝ) > 100) := by norm_num
    have herr : (validateInputs (some v) (some c) (some (0.9 : ℝ))
        (some (100 : ℝ)) (some (0.12 : ℝ))).errors = [] := by
      rw [validateInputs_errors_eq]
      simp [specValidatorErrors, specVoltageErrors, specCurrentErrors,
        specPowerFactorErrors, specEfficiencyErrors, h1, h2, h3, h4, h5, h6]
    have hvalid : (validateInputs (some v) (some c) (some (0.9 : ℝ))
        (some (100 : ℝ)) (some (0.12 : ℝ))).isValid = true := by
      rw [validateInputs_isValid, herr]
      rfl
    simp [updateCalculations, getInputValues, jsOr, hvalid]

/-- Witness for C5: with voltage 120 and current 10 present and every
optional field absent, the pipeline succeeds using the documented
defaults. -/
theorem falsy_default_substitution_witness :
    updateCalculations ⟨some 120, some 10, some 1, none, none, none⟩ =
      Except.ok (calculatePower 120 10 (some 1) 0.9 100 0.12) :=
  falsy_default_substitution.2.2.2.2 120 10 (some 1) (by norm_num)
    (by norm_num) (by norm_num) (by norm_num)
